import Mathlib

/-!
Shallow embedding of the art-backend expansion subsystem.

Sources embedded:
- src/controllers/artwork_expand.py (expand_subject, build_tree)
- src/controllers/artwork_explain.py (explain_artwork, explain_artwork_from_image)
- src/repositories/artwork_repository.py (ArtworkRepositoryImpl)
- src/repositories/base.py (ArtworkRepository protocol)
- src/middleware/error_handler.py (value_error_handler, generic handler)

The SQL query file (repositories/queries/artwork_queries.sql) is not part of
the source tree; where its behaviour matters (cache-key hashing, joins) the
definitions are modelled from the spec and say so in their doc comments.
Python datetimes are modelled as Nat, the AI collaborator as an explicit
function argument, and uuid4 as an explicit fresh-identifier argument.
-/

namespace ArtBackend

/-- Python exception classes that the embedded code raises. The code base
raises plain `ValueError` for both validation failures and missing artworks,
`RuntimeError` for the failed post-insert re-read, and a `TypeError` arises
from calling a function with an unexpected keyword argument. -/
inductive PyError where
  | valueError (msg : String)
  | runtimeError (msg : String)
  | typeError (msg : String)
deriving DecidableEq, Repr

/-- Domain model from src/models/artwork_record.py (ArtworkRecord).
`created_at` models the Python datetime as a Nat tick. -/
structure ArtworkRecord where
  artwork_id : String
  explanation_xml : String
  image_path : Option String
  creator_user_id : Option String
  created_at : Nat
deriving DecidableEq, Repr

/-- Domain model from src/models/artwork_record.py (SubjectExpansionRecord). -/
structure SubjectExpansionRecord where
  expansion_id : String
  artwork_id : String
  subject : String
  subject_hash : String
  expansion_xml : String
  parent_expansion_id : Option String
  created_at : Nat
deriving DecidableEq, Repr

/-- Row of the user_saved_artworks join table (written by
`save_user_artwork`, read by `get_user_saved_artworks`). -/
structure UserSavedArtwork where
  user_id : String
  artwork_id : String
  saved_at : Nat
deriving DecidableEq, Repr

/-- The persistent store: the artworks table, the subject_expansions table
and the user-saved join table, each modelled as an insertion-ordered list. -/
structure Store where
  artworks : List ArtworkRecord
  expansions : List SubjectExpansionRecord
  userSaved : List UserSavedArtwork
deriving DecidableEq, Repr

/-- Whitespace test used to model Python str.strip (and String.trim). -/
def is_space (c : Char) : Bool :=
  c == ' ' || c == '\t' || c == '\n' || c == '\r'

/-- Python str.strip modelled on the character list: drop leading and
trailing whitespace. -/
def py_strip (s : String) : String :=
  ⟨(((s.data.dropWhile is_space).reverse.dropWhile is_space).reverse)⟩

/-- ASCII case folding, modelling str.lower on the subjects in play. -/
def lower_char (c : Char) : Char :=
  if c.isUpper then Char.ofNat (c.toNat + 32) else c

/-- ASCII lowercase of a string. -/
def py_lower (s : String) : String :=
  ⟨s.data.map lower_char⟩

/-- Modelled from the spec: the cache key is "a deterministic hash of subject
text — case/whitespace-normalized — combined with the parent expansion
identifier". The actual hashing lives in the SQL file
repositories/queries/artwork_queries.sql, which is not in src/; this models
the normalization step: trim surrounding whitespace and fold case. -/
def normalize_subject (subject : String) : String :=
  py_lower (py_strip subject)

/-- Modelled from the spec: deterministic cache key derived from the
normalized subject combined with the parent expansion identifier (distinct
parents give distinct keys). Stands in for the SHA-256 computation done by
PostgreSQL in the missing SQL file. -/
def cache_key (subject : String) (parent_expansion_id : Option String) : String :=
  match parent_expansion_id with
  | none => "sha:" ++ normalize_subject subject
  | some p => "sha:" ++ normalize_subject subject ++ ":parent:" ++ p

/-- src/repositories/artwork_repository.py, get_artwork_explanation:
SELECT by artwork_id, take the first row or None. -/
def get_artwork_explanation (s : Store) (artwork_id : String) : Option ArtworkRecord :=
  (s.artworks.filter (fun a => a.artwork_id == artwork_id)).head?

/-- src/repositories/artwork_repository.py, get_cached_subject_expansion:
lookup by (artwork_id, cache key of subject and parent); PostgreSQL computes
the hash (modelled by `cache_key`). Returns the first row or None. -/
def get_cached_subject_expansion (s : Store) (artwork_id subject : String)
    (parent_expansion_id : Option String) : Option SubjectExpansionRecord :=
  (s.expansions.filter (fun e =>
    e.artwork_id == artwork_id && e.subject_hash == cache_key subject parent_expansion_id)).head?

/-- src/repositories/artwork_repository.py, get_subject_expansion:
SELECT by expansion_id, first row or None. -/
def get_subject_expansion (s : Store) (expansion_id : String) : Option SubjectExpansionRecord :=
  (s.expansions.filter (fun e => e.expansion_id == expansion_id)).head?

/-- src/repositories/artwork_repository.py, save_subject_expansion:
insert the row (PostgreSQL generates the subject_hash, modelled by
`cache_key`), then re-read by the generated id; if the re-read finds nothing
raise RuntimeError, otherwise return the re-read record. `fresh_id` models
`str(uuid.uuid4())` and `now` models `datetime.utcnow()`. The store after
the insert is returned alongside the result. -/
def save_subject_expansion (s : Store) (artwork_id subject expansion_xml : String)
    (parent_expansion_id : Option String) (fresh_id : String) (now : Nat) :
    Except PyError SubjectExpansionRecord × Store :=
  let row : SubjectExpansionRecord :=
    { expansion_id := fresh_id
      artwork_id := artwork_id
      subject := subject
      subject_hash := cache_key subject parent_expansion_id
      expansion_xml := expansion_xml
      parent_expansion_id := parent_expansion_id
      created_at := now }
  let s2 : Store := { s with expansions := s.expansions ++ [row] }
  match get_subject_expansion s2 fresh_id with
  | none => (.error (.runtimeError ("Failed to retrieve saved expansion: " ++ fresh_id)), s2)
  | some r => (.ok r, s2)

/-- src/repositories/artwork_repository.py, save_artwork_explanation (the
implementation, whose parameter list has no artwork_name): insert the artwork
row and return the domain record built from the inputs. -/
def save_artwork_explanation (s : Store) (artwork_id explanation_xml : String)
    (image_path : Option String) (creator_user_id : Option String) (now : Nat) :
    ArtworkRecord × Store :=
  let rec_ : ArtworkRecord :=
    { artwork_id := artwork_id
      explanation_xml := explanation_xml
      image_path := image_path
      creator_user_id := creator_user_id
      created_at := now }
  (rec_, { s with artworks := s.artworks ++ [rec_] })

/-- src/repositories/artwork_repository.py, save_user_artwork: insert a row
into the user-saved join table. -/
def save_user_artwork (s : Store) (user_id artwork_id : String) (now : Nat) : Store :=
  { s with userSaved := s.userSaved ++ [{ user_id := user_id, artwork_id := artwork_id, saved_at := now }] }

/-- src/repositories/artwork_repository.py, get_user_saved_artworks. The SQL
join is modelled from the spec ("metadata-only on read"): each saved row of
the user is joined with its artwork. The Python mapping (which is in src/)
sets explanation_xml to the empty string and created_at to the join row's
saved_at. -/
def get_user_saved_artworks (s : Store) (user_id : String) : List ArtworkRecord :=
  (s.userSaved.filter (fun row => row.user_id == user_id)).filterMap (fun row =>
    (get_artwork_explanation s row.artwork_id).map (fun a =>
      { artwork_id := row.artwork_id
        explanation_xml := ""
        image_path := a.image_path
        creator_user_id := a.creator_user_id
        created_at := row.saved_at }))

/-- src/repositories/artwork_repository.py, get_all_expansions_with_hierarchy.
The recursive CTE is modelled from the spec: "the full flat set of expansions
for an artwork". -/
def get_all_expansions_with_hierarchy (s : Store) (artwork_id : String) :
    List SubjectExpansionRecord :=
  s.expansions.filter (fun e => e.artwork_id == artwork_id)

/-- Outcome of one expand_subject request: the result (or raised exception),
the store after the request, and how many calls were made to the external
interpretation collaborator (`ai_service.expand_subject`). -/
structure ExpandOutcome where
  result : Except PyError SubjectExpansionRecord
  store : Store
  aiCalls : Nat
deriving Repr

/-- src/controllers/artwork_expand.py, expand_subject: validate subject and
artwork_id (Python `not x or not x.strip()`), query the cache, on hit return
the cached record; on miss fetch the artwork (ValueError "Artwork not found"
when absent), call the AI collaborator `ai` once, and persist the result. -/
def expand_subject (ai : String → String → String) (s : Store)
    (artwork_id subject : String) (parent_expansion_id : Option String)
    (fresh_id : String) (now : Nat) : ExpandOutcome :=
  if subject == "" || py_strip subject == "" then
    { result := .error (.valueError "Subject cannot be empty"), store := s, aiCalls := 0 }
  else if artwork_id == "" || py_strip artwork_id == "" then
    { result := .error (.valueError "Artwork ID cannot be empty"), store := s, aiCalls := 0 }
  else
    match get_cached_subject_expansion s artwork_id subject parent_expansion_id with
    | some cached => { result := .ok cached, store := s, aiCalls := 0 }
    | none =>
      match get_artwork_explanation s artwork_id with
      | none =>
        { result := .error (.valueError ("Artwork not found: " ++ artwork_id))
          store := s, aiCalls := 0 }
      | some art =>
        let expansion_xml := ai art.explanation_xml subject
        let saved := save_subject_expansion s artwork_id subject expansion_xml
          parent_expansion_id fresh_id now
        { result := saved.1, store := saved.2, aiCalls := 1 }

/-- src/middleware/error_handler.py: value_error_handler returns HTTP 400 for
every ValueError; every other exception falls to the generic handler's 500. -/
def handle_exception : PyError → Nat
  | .valueError _ => 400
  | .runtimeError _ => 500
  | .typeError _ => 500

/-- Python keyword-argument binding: a call binds only when every keyword
used at the call site is a declared parameter of the callee; otherwise the
call raises TypeError (unexpected keyword argument). -/
def accepts_kwargs (params : List String) (kwargs : List String) : Bool :=
  kwargs.all (fun k => params.contains k)

/-- Parameter names of ArtworkRepositoryImpl.save_artwork_explanation
(src/repositories/artwork_repository.py lines 71-77). -/
def impl_save_artwork_params : List String :=
  ["artwork_id", "explanation_xml", "image_path", "creator_user_id"]

/-- Parameter names of the ArtworkRepository protocol's
save_artwork_explanation (src/repositories/base.py lines 14-21). -/
def protocol_save_artwork_params : List String :=
  ["artwork_id", "explanation_xml", "image_path", "artwork_name", "creator_user_id"]

/-- Keyword arguments the explain-by-name controller passes to
repository.save_artwork_explanation (src/controllers/artwork_explain.py
lines 67-73). -/
def explain_by_name_save_kwargs : List String :=
  ["artwork_id", "explanation_xml", "image_path", "artwork_name", "creator_user_id"]

/-- src/controllers/artwork_explain.py, explain_artwork (explain by name):
generate the explanation from the name, then call
repository.save_artwork_explanation with keyword arguments that include
artwork_name. The wired repository is ArtworkRepositoryImpl, whose
save_artwork_explanation declares no artwork_name parameter, so Python
keyword binding fails and the call raises TypeError before any of the save
body runs — nothing is persisted. The binding step is modelled explicitly
with `accepts_kwargs`; the guarded branch is the body that would run if the
keywords bound. The auto-save of the artwork into the authenticated user's
collection further down (lines 76-79) is commented out in the source and in
any case never reached. -/
def explain_artwork (aiByName : String → String) (s : Store)
    (authenticated_user : Option String) (artwork_name : String)
    (fresh_artwork_id : String) (now : Nat) : Except PyError ArtworkRecord × Store :=
  let explanation_xml := aiByName artwork_name
  if accepts_kwargs impl_save_artwork_params explain_by_name_save_kwargs then
    let saved := save_artwork_explanation s fresh_artwork_id explanation_xml none
      authenticated_user now
    (.ok saved.1, saved.2)
  else
    (.error (.typeError
      "save_artwork_explanation got an unexpected keyword argument artwork_name"), s)

/-- src/controllers/artwork_explain.py, explain_artwork_from_image: upload
the image, generate the explanation, save the artwork (its save call passes
only keywords that ArtworkRepositoryImpl declares, so it binds), and when
the request is authenticated also save the artwork into the user's
collection. -/
def explain_artwork_from_image (aiImage : String → String) (s : Store)
    (authenticated_user : Option String) (image_data : String)
    (image_path : String) (fresh_artwork_id : String) (now : Nat) : ArtworkRecord × Store :=
  let explanation_xml := aiImage image_data
  let saved := save_artwork_explanation s fresh_artwork_id explanation_xml
    (some image_path) authenticated_user now
  match authenticated_user with
  | some uid => (saved.1, save_user_artwork saved.2 uid fresh_artwork_id now)
  | none => saved

/-- The parent-linkage invariant from the spec: every stored expansion with a
non-null parent references an existing expansion of the same artwork. -/
def parent_linkage_ok (s : Store) : Bool :=
  s.expansions.all (fun e =>
    match e.parent_expansion_id with
    | none => true
    | some pid =>
      s.expansions.any (fun q => q.expansion_id == pid && q.artwork_id == e.artwork_id))

/-- Node of the JSON tree built by build_tree in
src/controllers/artwork_expand.py: id, subject, ISO-formatted created_at,
and the recursively built sub_expansions. -/
inductive ExpansionNode where
  | mk (id : String) (subject : String) (created_at : String)
      (sub_expansions : List ExpansionNode)

/-- Models datetime.isoformat on the Nat-modelled timestamp. -/
def isoformat (n : Nat) : String := toString n

/-- src/controllers/artwork_expand.py, build_tree: for each record whose
parent_expansion_id equals the requested parent, emit a node whose children
are built recursively from the same flat list keyed by the record's id.
Python's unbounded recursion is modelled with explicit fuel; any fuel above
the forest depth gives the Python result. -/
def build_tree (fuel : Nat) (expansions : List SubjectExpansionRecord)
    (parent_id : Option String) : List ExpansionNode :=
  match fuel with
  | 0 => []
  | f + 1 =>
    (expansions.filter (fun e => e.parent_expansion_id == parent_id)).map
      (fun e => .mk e.expansion_id e.subject (isoformat e.created_at)
        (build_tree f expansions (some e.expansion_id)))

/-- The data a tree node carries about its record. -/
def node_key : ExpansionNode → String × String × String
  | .mk i s c _ => (i, s, c)

/-- The projection of a record to the data its tree node would carry. -/
def record_key (e : SubjectExpansionRecord) : String × String × String :=
  (e.expansion_id, e.subject, isoformat e.created_at)

/-- A node is good for a flat list when its children are exactly (in order)
the records of the list whose parent_expansion_id equals the node's id, and
all children are recursively good, checked down to the given depth; at depth
zero the check fails, so `good_node d l t = true` certifies every level of a
tree of depth below `d`. -/
def good_node : Nat → List SubjectExpansionRecord → ExpansionNode → Bool
  | 0, _, _ => false
  | d + 1, l, .mk i _ _ sub =>
    (sub.map node_key ==
      (l.filter (fun e => e.parent_expansion_id == some i)).map record_key)
      && sub.all (good_node d l)

/-- Decidable witness that `m` is a depth ranking for the list: every record
with a parent has rank one more than its parent id's rank. A flat list drawn
from a parent-linked forest always admits such a ranking. -/
def rank_coherent (m : String → Nat) (l : List SubjectExpansionRecord) : Bool :=
  l.all (fun e =>
    match e.parent_expansion_id with
    | none => true
    | some pid => m e.expansion_id == m pid + 1)

/-- Decidable witness that every rank is below the bound N. -/
def rank_bounded (m : String → Nat) (N : Nat) (l : List SubjectExpansionRecord) : Bool :=
  l.all (fun e => decide (m e.expansion_id < N))

/-! ### Concrete fixtures used by witnesses and counterexamples -/

/-- AI collaborator stub for witnesses. -/
def witness_ai : String → String → String := fun _ subject => "xml:" ++ subject

/-- A second, different AI collaborator stub, used as the collaborator of
second calls to show results do not depend on it. -/
def witness_ai2 : String → String → String := fun _ _ => "other-xml"

/-- Explain-by-name AI stub. -/
def witness_ai_by_name : String → String := fun artwork_name => "xml:" ++ artwork_name

/-- A concrete artwork record. -/
def witness_artwork : ArtworkRecord :=
  { artwork_id := "a1", explanation_xml := "original explanation",
    image_path := none, creator_user_id := none, created_at := 1 }

/-- Store holding one artwork and no expansions. -/
def witness_store : Store := { artworks := [witness_artwork], expansions := [], userSaved := [] }

/-- The empty store. -/
def empty_store : Store := { artworks := [], expansions := [], userSaved := [] }

/-- A cached root expansion of the subject Impressionism for artwork a1. -/
def witness_cached_rec : SubjectExpansionRecord :=
  { expansion_id := "e0", artwork_id := "a1", subject := "Impressionism",
    subject_hash := cache_key "Impressionism" none, expansion_xml := "cached xml",
    parent_expansion_id := none, created_at := 2 }

/-- Store holding artwork a1 and the cached Impressionism expansion. -/
def witness_cached_store : Store :=
  { artworks := [witness_artwork], expansions := [witness_cached_rec], userSaved := [] }

/-- A root expansion of artwork a1, used as a valid parent. -/
def witness_parent_rec : SubjectExpansionRecord :=
  { expansion_id := "e0", artwork_id := "a1", subject := "Root subject",
    subject_hash := cache_key "Root subject" none, expansion_xml := "root xml",
    parent_expansion_id := none, created_at := 2 }

/-- Store holding artwork a1 and one root expansion. -/
def witness_parent_store : Store :=
  { artworks := [witness_artwork], expansions := [witness_parent_rec], userSaved := [] }

/-- Store where user u1 saved artwork a1 at tick 9 while the artwork itself
was created at tick 1 with a non-empty explanation body. -/
def witness_saved_store : Store :=
  { artworks := [witness_artwork], expansions := [],
    userSaved := [{ user_id := "u1", artwork_id := "a1", saved_at := 9 }] }

/-- Five expansions of one artwork: C's parent is B, B's parent is A, and
A, D, E are roots (the worked example of the tree-reconstruction property). -/
def forest_records : List SubjectExpansionRecord :=
  [ { expansion_id := "A", artwork_id := "a1", subject := "sA", subject_hash := "hA",
      expansion_xml := "x", parent_expansion_id := none, created_at := 1 },
    { expansion_id := "B", artwork_id := "a1", subject := "sB", subject_hash := "hB",
      expansion_xml := "x", parent_expansion_id := some "A", created_at := 2 },
    { expansion_id := "C", artwork_id := "a1", subject := "sC", subject_hash := "hC",
      expansion_xml := "x", parent_expansion_id := some "B", created_at := 3 },
    { expansion_id := "D", artwork_id := "a1", subject := "sD", subject_hash := "hD",
      expansion_xml := "x", parent_expansion_id := none, created_at := 4 },
    { expansion_id := "E", artwork_id := "a1", subject := "sE", subject_hash := "hE",
      expansion_xml := "x", parent_expansion_id := none, created_at := 5 } ]

/-- Depth ranking of `forest_records`: roots rank 0, B rank 1, C rank 2. -/
def forest_rank : String → Nat :=
  fun i => if i = "C" then 2 else if i = "B" then 1 else 0

/-! ### Helper lemmas -/

theorem py_strip_empty : py_strip "" = "" := rfl

theorem validation_guard_false (s : String) (h : py_strip s ≠ "") :
    (s == "" || py_strip s == "") = false := by
  have h1 : s ≠ "" := by
    intro he
    exact h (by rw [he]; rfl)
  simp [h1, h]

theorem get_cached_filter_nil (s : Store) (artwork_id subject : String)
    (parent : Option String)
    (h : get_cached_subject_expansion s artwork_id subject parent = none) :
    s.expansions.filter (fun e =>
      e.artwork_id == artwork_id && e.subject_hash == cache_key subject parent) = [] := by
  unfold get_cached_subject_expansion at h
  exact List.head?_eq_none_iff.mp h

theorem get_subject_expansion_after_insert (s : Store) (row : SubjectExpansionRecord)
    (hfresh : ∀ e ∈ s.expansions, e.expansion_id ≠ row.expansion_id) :
    get_subject_expansion { s with expansions := s.expansions ++ [row] } row.expansion_id
      = some row := by
  unfold get_subject_expansion
  have hnil : s.expansions.filter (fun e => e.expansion_id == row.expansion_id) = [] := by
    apply List.filter_eq_nil_iff.mpr
    intro e he
    simpa using hfresh e he
  simp [List.filter_append, hnil]

theorem cache_key_ne_empty (subject : String) (parent : Option String) :
    cache_key subject parent ≠ "" := by
  intro h
  cases parent with
  | none =>
    have h2 := congrArg String.length h
    simp [cache_key, String.length_append] at h2
    exact absurd h2.1 (by decide)
  | some p =>
    have h2 := congrArg String.length h
    simp [cache_key, String.length_append] at h2
    exact absurd h2.1.1.1 (by decide)

theorem save_subject_expansion_store
    (s : Store) (artwork_id subject expansion_xml : String) (parent : Option String)
    (fresh_id : String) (now : Nat) :
    (save_subject_expansion s artwork_id subject expansion_xml parent fresh_id now).2
      = { s with expansions := s.expansions ++
          [{ expansion_id := fresh_id, artwork_id := artwork_id, subject := subject,
             subject_hash := cache_key subject parent, expansion_xml := expansion_xml,
             parent_expansion_id := parent, created_at := now }] } := by
  unfold save_subject_expansion
  cases h : get_subject_expansion { s with expansions := s.expansions ++
      [{ expansion_id := fresh_id, artwork_id := artwork_id, subject := subject,
         subject_hash := cache_key subject parent, expansion_xml := expansion_xml,
         parent_expansion_id := parent, created_at := now }] } fresh_id <;> simp [h]

theorem parent_linkage_ok_append (s : Store) (row : SubjectExpansionRecord)
    (hinv : parent_linkage_ok s = true)
    (hrow : ∀ pid, row.parent_expansion_id = some pid →
      ∃ q ∈ s.expansions, q.expansion_id = pid ∧ q.artwork_id = row.artwork_id) :
    parent_linkage_ok { s with expansions := s.expansions ++ [row] } = true := by
  unfold parent_linkage_ok at hinv ⊢
  rw [List.all_eq_true] at hinv ⊢
  intro e he
  rw [List.mem_append] at he
  rcases he with he | he
  · have h1 := hinv e he
    cases hp : e.parent_expansion_id with
    | none => simp [hp]
    | some pid =>
      simp only [hp] at h1 ⊢
      rw [List.any_append]
      simp [h1]
  · rw [List.mem_singleton] at he
    subst he
    cases hp : e.parent_expansion_id with
    | none => simp [hp]
    | some pid =>
      obtain ⟨q, hq, hqid, hqa⟩ := hrow pid hp
      simp only [hp]
      rw [List.any_eq_true]
      refine ⟨q, ?_, ?_⟩
      · simp [List.mem_append, hq]
      · simp [hqid, hqa]

theorem build_tree_map_key (l : List SubjectExpansionRecord) (p : Option String) (f : Nat) :
    (build_tree (f + 1) l p).map node_key
      = (l.filter (fun e => e.parent_expansion_id == p)).map record_key := by
  simp only [build_tree, List.map_map]
  rfl

theorem build_tree_good_aux (l : List SubjectExpansionRecord) (m : String → Nat) (N : Nat)
    (Hm : ∀ e ∈ l, ∀ pid, e.parent_expansion_id = some pid →
      m e.expansion_id = m pid + 1)
    (Hb : ∀ e ∈ l, m e.expansion_id < N) :
    ∀ (b : Nat) (p : Option String) (f g : Nat),
      (∀ e ∈ l, e.parent_expansion_id = p → N ≤ m e.expansion_id + b) →
      b + 1 ≤ f → b + 1 ≤ g →
      (build_tree f l p).all (good_node g l) = true := by
  intro b
  induction b with
  | zero =>
    intro p f g hbound hf hg
    have hnil : l.filter (fun e => e.parent_expansion_id == p) = [] := by
      apply List.filter_eq_nil_iff.mpr
      intro e he hpe
      have hpeq : e.parent_expansion_id = p := by simpa using hpe
      have h1 := hbound e he hpeq
      have h2 := Hb e he
      omega
    obtain ⟨f2, rfl⟩ : ∃ f2, f = f2 + 1 := ⟨f - 1, by omega⟩
    simp [build_tree, hnil]
  | succ b ih =>
    intro p f g hbound hf hg
    obtain ⟨f2, rfl⟩ : ∃ f2, f = f2 + 1 := ⟨f - 1, by omega⟩
    obtain ⟨g2, rfl⟩ : ∃ g2, g = g2 + 1 := ⟨g - 1, by omega⟩
    rw [List.all_eq_true]
    intro t ht
    simp only [build_tree] at ht
    rw [List.mem_map] at ht
    obtain ⟨e, hef, rfl⟩ := ht
    rw [List.mem_filter] at hef
    obtain ⟨hel, hep⟩ := hef
    have hepEq : e.parent_expansion_id = p := by simpa using hep
    obtain ⟨f3, rfl⟩ : ∃ f3, f2 = f3 + 1 := ⟨f2 - 1, by omega⟩
    simp only [good_node]
    rw [Bool.and_eq_true]
    constructor
    · rw [build_tree_map_key]
      simp
    · apply ih (some e.expansion_id) (f3 + 1) g2 ?_ (by omega) (by omega)
      intro e2 he2 hpe2
      have hrank := Hm e2 he2 e.expansion_id hpe2
      have hb1 := hbound e hel hepEq
      omega

/-! ### Claim theorems -/

/-- C1: cache idempotence — for an artwork that exists, a subject that is
non-empty after trimming, a non-empty artwork id, and any parent expansion
id, two successive expand_subject calls with identical arguments and no
intervening mutation return the same record (hence the same expansion
identifier), and the second call makes zero calls to the external
interpretation collaborator and performs no store write (its store equals
the store after the first call). -/
theorem expand_subject_cache_idempotent
    (ai ai2 : String → String → String) (s : Store)
    (artwork_id subject : String) (parent : Option String)
    (fresh_id fresh_id2 : String) (now now2 : Nat)
    (hart : get_artwork_explanation s artwork_id ≠ none)
    (hsub : py_strip subject ≠ "") (haid : py_strip artwork_id ≠ "")
    (hfresh : ∀ e ∈ s.expansions, e.expansion_id ≠ fresh_id) :
    ∃ r : SubjectExpansionRecord,
      (expand_subject ai s artwork_id subject parent fresh_id now).result = .ok r ∧
      (expand_subject ai2 (expand_subject ai s artwork_id subject parent fresh_id now).store
        artwork_id subject parent fresh_id2 now2).result = .ok r ∧
      (expand_subject ai2 (expand_subject ai s artwork_id subject parent fresh_id now).store
        artwork_id subject parent fresh_id2 now2).aiCalls = 0 ∧
      (expand_subject ai2 (expand_subject ai s artwork_id subject parent fresh_id now).store
        artwork_id subject parent fresh_id2 now2).store
        = (expand_subject ai s artwork_id subject parent fresh_id now).store := by
  have hg1 := validation_guard_false subject hsub
  have hg2 := validation_guard_false artwork_id haid
  cases hc : get_cached_subject_expansion s artwork_id subject parent with
  | some cached =>
    refine ⟨cached, ?_, ?_, ?_, ?_⟩ <;> simp [expand_subject, hg1, hg2, hc]
  | none =>
    cases ha : get_artwork_explanation s artwork_id with
    | none => exact absurd ha hart
    | some art =>
      refine ⟨{ expansion_id := fresh_id, artwork_id := artwork_id, subject := subject,
                subject_hash := cache_key subject parent,
                expansion_xml := ai art.explanation_xml subject,
                parent_expansion_id := parent, created_at := now }, ?_, ?_, ?_, ?_⟩
      all_goals {
        have hread := get_subject_expansion_after_insert s
          { expansion_id := fresh_id, artwork_id := artwork_id, subject := subject,
            subject_hash := cache_key subject parent,
            expansion_xml := ai art.explanation_xml subject,
            parent_expansion_id := parent, created_at := now }
          (by simpa using hfresh)
        have hnil := get_cached_filter_nil s artwork_id subject parent hc
        simp [expand_subject, hg1, hg2, hc, ha, save_subject_expansion, hread,
          get_cached_subject_expansion, List.filter_append, hnil]
      }

/-- Witness for C1 at a concrete store with one artwork and an empty cache. -/
theorem expand_subject_cache_idempotent_witness :
    (get_artwork_explanation witness_store "a1" ≠ none) ∧
    py_strip "Cubism" ≠ "" ∧ py_strip "a1" ≠ "" ∧
    (∀ e ∈ witness_store.expansions, e.expansion_id ≠ "e1") ∧
    (∃ r : SubjectExpansionRecord,
      (expand_subject witness_ai witness_store "a1" "Cubism" none "e1" 5).result = .ok r ∧
      (expand_subject witness_ai2
        (expand_subject witness_ai witness_store "a1" "Cubism" none "e1" 5).store
        "a1" "Cubism" none "e2" 9).result = .ok r ∧
      (expand_subject witness_ai2
        (expand_subject witness_ai witness_store "a1" "Cubism" none "e1" 5).store
        "a1" "Cubism" none "e2" 9).aiCalls = 0 ∧
      (expand_subject witness_ai2
        (expand_subject witness_ai witness_store "a1" "Cubism" none "e1" 5).store
        "a1" "Cubism" none "e2" 9).store
        = (expand_subject witness_ai witness_store "a1" "Cubism" none "e1" 5).store) :=
  ⟨by decide, by decide, by decide, by decide,
    expand_subject_cache_idempotent witness_ai witness_ai2 witness_store "a1" "Cubism" none
      "e1" "e2" 5 9 (by decide) (by decide) (by decide) (by decide)⟩

/-- C5: empty-input rejection — when the subject or the artwork id trims to
the empty string, expand_subject fails with the corresponding ValueError,
leaves the store unchanged, and makes zero AI-collaborator calls. -/
theorem expand_subject_empty_input_rejected
    (ai : String → String → String) (s : Store) (artwork_id subject : String)
    (parent : Option String) (fresh_id : String) (now : Nat)
    (h : py_strip subject = "" ∨ py_strip artwork_id = "") :
    (expand_subject ai s artwork_id subject parent fresh_id now).store = s ∧
    (expand_subject ai s artwork_id subject parent fresh_id now).aiCalls = 0 ∧
    ((expand_subject ai s artwork_id subject parent fresh_id now).result
        = .error (.valueError "Subject cannot be empty") ∨
      (expand_subject ai s artwork_id subject parent fresh_id now).result
        = .error (.valueError "Artwork ID cannot be empty")) := by
  rcases h with h1 | h2
  · have hb : (subject == "" || py_strip subject == "") = true := by simp [h1]
    simp [expand_subject, hb]
  · cases hb : (subject == "" || py_strip subject == "") with
    | true => simp [expand_subject, hb]
    | false =>
      have hb2 : (artwork_id == "" || py_strip artwork_id == "") = true := by simp [h2]
      simp [expand_subject, hb, hb2]

/-- Witness for C5 at the whitespace subject "   ". -/
theorem expand_subject_empty_input_rejected_witness :
    (py_strip "   " = "" ∨ py_strip "a1" = "") ∧
    ((expand_subject witness_ai witness_store "a1" "   " none "e1" 5).store = witness_store ∧
      (expand_subject witness_ai witness_store "a1" "   " none "e1" 5).aiCalls = 0 ∧
      ((expand_subject witness_ai witness_store "a1" "   " none "e1" 5).result
          = .error (.valueError "Subject cannot be empty") ∨
        (expand_subject witness_ai witness_store "a1" "   " none "e1" 5).result
          = .error (.valueError "Artwork ID cannot be empty"))) :=
  ⟨Or.inl (by decide),
    expand_subject_empty_input_rejected witness_ai witness_store "a1" "   " none "e1" 5
      (Or.inl (by decide))⟩

/-- C3: cache key normalization — two subjects that normalize (trim plus
case fold) to the same key give the same cache-lookup result, for every
store, artwork id and parent expansion id. -/
theorem cached_lookup_normalization
    (s : Store) (artwork_id s1 s2 : String) (parent : Option String)
    (h : normalize_subject s1 = normalize_subject s2) :
    get_cached_subject_expansion s artwork_id s1 parent
      = get_cached_subject_expansion s artwork_id s2 parent := by
  have hk : cache_key s1 parent = cache_key s2 parent := by
    unfold cache_key
    cases parent <;> simp [h]
  unfold get_cached_subject_expansion
  rw [hk]

/-- Witness for C3: "Impressionism" and "  impressionism  " resolve to the
same cache entry, namely the cached record of the fixture store. -/
theorem cached_lookup_normalization_witness :
    normalize_subject "Impressionism" = normalize_subject "  impressionism  " ∧
    get_cached_subject_expansion witness_cached_store "a1" "Impressionism" none
      = get_cached_subject_expansion witness_cached_store "a1" "  impressionism  " none ∧
    get_cached_subject_expansion witness_cached_store "a1" "Impressionism" none
      = some witness_cached_rec ∧
    (expand_subject witness_ai witness_cached_store "a1" "  impressionism  " none "e9" 9).result
      = .ok witness_cached_rec :=
  ⟨by decide,
    cached_lookup_normalization witness_cached_store "a1" "Impressionism" "  impressionism  "
      none (by decide),
    by decide, by rfl⟩

/-- C2 counterexample: for a missing artwork the code raises a plain
ValueError — the same exception class as validation failures — and the
error handler gives it the same response status as a validation error, so
the failure is not distinct from ValidationError as the claim states. -/
theorem missing_artwork_error_not_distinct_cex :
    (expand_subject witness_ai empty_store "a9" "Cubism" none "e1" 5).result
      = .error (.valueError "Artwork not found: a9") ∧
    (expand_subject witness_ai empty_store "a9" "Cubism" none "e1" 5).aiCalls = 0 ∧
    (expand_subject witness_ai empty_store "a9" "" none "e1" 5).result
      = .error (.valueError "Subject cannot be empty") ∧
    handle_exception (.valueError "Artwork not found: a9")
      = handle_exception (.valueError "Subject cannot be empty") :=
  ⟨by rfl, by decide, by rfl, by rfl⟩

/-- C2 amended: for valid non-empty inputs whose triple is not cached and
whose artwork does not exist, expand_subject fails with
ValueError "Artwork not found: ..." — the same exception class and handler
status as validation failures, not a distinct NotFoundError — makes zero
AI-collaborator calls, and leaves the store unchanged. -/
theorem missing_artwork_value_error
    (ai : String → String → String) (s : Store) (artwork_id subject : String)
    (parent : Option String) (fresh_id : String) (now : Nat)
    (hsub : py_strip subject ≠ "") (haid : py_strip artwork_id ≠ "")
    (hmiss : get_cached_subject_expansion s artwork_id subject parent = none)
    (habsent : get_artwork_explanation s artwork_id = none) :
    (expand_subject ai s artwork_id subject parent fresh_id now).result
      = .error (.valueError ("Artwork not found: " ++ artwork_id)) ∧
    (expand_subject ai s artwork_id subject parent fresh_id now).aiCalls = 0 ∧
    (expand_subject ai s artwork_id subject parent fresh_id now).store = s ∧
    handle_exception (.valueError ("Artwork not found: " ++ artwork_id))
      = handle_exception (.valueError "Subject cannot be empty") := by
  have hg1 := validation_guard_false subject hsub
  have hg2 := validation_guard_false artwork_id haid
  refine ⟨?_, ?_, ?_, rfl⟩ <;> simp [expand_subject, hg1, hg2, hmiss, habsent]

/-- Witness for the amended C2 at the empty store. -/
theorem missing_artwork_value_error_witness :
    (py_strip "Cubism" ≠ "" ∧ py_strip "a9" ≠ "" ∧
      get_cached_subject_expansion empty_store "a9" "Cubism" none = none ∧
      get_artwork_explanation empty_store "a9" = none) ∧
    ((expand_subject witness_ai empty_store "a9" "Cubism" none "e1" 5).result
        = .error (.valueError ("Artwork not found: " ++ "a9")) ∧
      (expand_subject witness_ai empty_store "a9" "Cubism" none "e1" 5).aiCalls = 0 ∧
      (expand_subject witness_ai empty_store "a9" "Cubism" none "e1" 5).store = empty_store ∧
      handle_exception (.valueError ("Artwork not found: " ++ "a9"))
        = handle_exception (.valueError "Subject cannot be empty")) :=
  ⟨⟨by decide, by decide, by decide, by decide⟩,
    missing_artwork_value_error witness_ai empty_store "a9" "Cubism" none "e1" 5
      (by decide) (by decide) (by decide) (by decide)⟩

/-- C4 counterexample: on a store satisfying the parent-linkage invariant,
expand_subject called with a parent expansion id that does not exist ("ghost")
succeeds and creates a record whose parent is absent, breaking the invariant:
no validation of the parent is performed. -/
theorem parent_linkage_violated_cex :
    parent_linkage_ok witness_store = true ∧
    (expand_subject witness_ai witness_store "a1" "Cubism" (some "ghost") "e1" 5).result
      = .ok { expansion_id := "e1", artwork_id := "a1", subject := "Cubism",
              subject_hash := cache_key "Cubism" (some "ghost"),
              expansion_xml := "xml:Cubism", parent_expansion_id := some "ghost",
              created_at := 5 } ∧
    parent_linkage_ok
      (expand_subject witness_ai witness_store "a1" "Cubism" (some "ghost") "e1" 5).store
      = false :=
  ⟨by decide, by rfl, by decide⟩

/-- C4 amended: expand_subject (and the underlying save_subject_expansion)
preserves the parent-linkage invariant provided the caller passes a parent
expansion id that is null or names an existing expansion of the same artwork;
the code itself performs no such validation. -/
theorem parent_linkage_preserved
    (ai : String → String → String) (s : Store) (artwork_id subject xml : String)
    (parent : Option String) (fresh_id : String) (now : Nat)
    (hinv : parent_linkage_ok s = true)
    (hp : parent = none ∨
      ∃ q ∈ s.expansions, some q.expansion_id = parent ∧ q.artwork_id = artwork_id) :
    parent_linkage_ok (expand_subject ai s artwork_id subject parent fresh_id now).store
      = true ∧
    parent_linkage_ok (save_subject_expansion s artwork_id subject xml parent fresh_id now).2
      = true := by
  have hrow : ∀ (row : SubjectExpansionRecord), row.parent_expansion_id = parent →
      row.artwork_id = artwork_id →
      ∀ pid, row.parent_expansion_id = some pid →
      ∃ q ∈ s.expansions, q.expansion_id = pid ∧ q.artwork_id = row.artwork_id := by
    intro row hrp hra pid hpid
    rcases hp with h0 | ⟨q, hq, hqp, hqa⟩
    · rw [hrp, h0] at hpid
      exact absurd hpid (by simp)
    · rw [hrp] at hpid
      rw [hpid] at hqp
      refine ⟨q, hq, ?_, ?_⟩
      · exact Option.some.inj hqp
      · rw [hqa, hra]
  constructor
  · cases hb1 : (subject == "" || py_strip subject == "") with
    | true => simpa [expand_subject, hb1] using hinv
    | false =>
      cases hb2 : (artwork_id == "" || py_strip artwork_id == "") with
      | true => simpa [expand_subject, hb1, hb2] using hinv
      | false =>
        cases hc : get_cached_subject_expansion s artwork_id subject parent with
        | some cached => simpa [expand_subject, hb1, hb2, hc] using hinv
        | none =>
          cases ha : get_artwork_explanation s artwork_id with
          | none => simpa [expand_subject, hb1, hb2, hc, ha] using hinv
          | some art =>
            have hst : (expand_subject ai s artwork_id subject parent fresh_id now).store
                = (save_subject_expansion s artwork_id subject
                    (ai art.explanation_xml subject) parent fresh_id now).2 := by
              simp [expand_subject, hb1, hb2, hc, ha]
            rw [hst, save_subject_expansion_store]
            exact parent_linkage_ok_append s _ hinv (hrow _ rfl rfl)
  · rw [save_subject_expansion_store]
    exact parent_linkage_ok_append s _ hinv (hrow _ rfl rfl)

/-- Witness for the amended C4: expanding with the existing root expansion e0
of the same artwork as parent preserves the invariant. -/
theorem parent_linkage_preserved_witness :
    (parent_linkage_ok witness_parent_store = true ∧
      (some "e0" = (none : Option String) ∨
        ∃ q ∈ witness_parent_store.expansions,
          some q.expansion_id = some "e0" ∧ q.artwork_id = "a1")) ∧
    (parent_linkage_ok
        (expand_subject witness_ai witness_parent_store "a1" "Cubism" (some "e0") "e1" 5).store
        = true ∧
      parent_linkage_ok
        (save_subject_expansion witness_parent_store "a1" "Cubism" "xml" (some "e0") "e1" 5).2
        = true) :=
  ⟨⟨by decide, Or.inr ⟨witness_parent_rec, by decide, by decide, by decide⟩⟩,
    parent_linkage_preserved witness_ai witness_parent_store "a1" "Cubism" "xml"
      (some "e0") "e1" 5 (by decide)
      (Or.inr ⟨witness_parent_rec, by decide, by decide, by decide⟩)⟩

/-- C7: save round-trip — with a fresh generated identifier,
save_subject_expansion inserts the row, re-reads it, and returns exactly the
record that get_subject_expansion finds at that identifier, with all fields
equal to the inputs and a non-empty generated cache key. -/
theorem save_subject_expansion_roundtrip
    (s : Store) (artwork_id subject expansion_xml : String) (parent : Option String)
    (fresh_id : String) (now : Nat)
    (hfresh : ∀ e ∈ s.expansions, e.expansion_id ≠ fresh_id) :
    ∃ r s2,
      save_subject_expansion s artwork_id subject expansion_xml parent fresh_id now
        = (.ok r, s2) ∧
      get_subject_expansion s2 fresh_id = some r ∧
      r.expansion_id = fresh_id ∧ r.artwork_id = artwork_id ∧ r.subject = subject ∧
      r.expansion_xml = expansion_xml ∧ r.parent_expansion_id = parent ∧
      r.subject_hash = cache_key subject parent ∧ r.subject_hash ≠ "" ∧
      r.created_at = now := by
  have hread := get_subject_expansion_after_insert s
    { expansion_id := fresh_id, artwork_id := artwork_id, subject := subject,
      subject_hash := cache_key subject parent, expansion_xml := expansion_xml,
      parent_expansion_id := parent, created_at := now }
    (by simpa using hfresh)
  refine ⟨_, _, ?_, hread, rfl, rfl, rfl, rfl, rfl, rfl, cache_key_ne_empty subject parent, rfl⟩
  unfold save_subject_expansion
  simp [hread]

/-- Witness for C7 at the fixture store with one artwork and empty cache. -/
theorem save_subject_expansion_roundtrip_witness :
    (∀ e ∈ witness_store.expansions, e.expansion_id ≠ "e1") ∧
    (∃ r s2,
      save_subject_expansion witness_store "a1" "Cubism" "body xml" none "e1" 5
        = (.ok r, s2) ∧
      get_subject_expansion s2 "e1" = some r ∧
      r.expansion_id = "e1" ∧ r.artwork_id = "a1" ∧ r.subject = "Cubism" ∧
      r.expansion_xml = "body xml" ∧ r.parent_expansion_id = none ∧
      r.subject_hash = cache_key "Cubism" none ∧ r.subject_hash ≠ "" ∧
      r.created_at = 5) :=
  ⟨by decide,
    save_subject_expansion_roundtrip witness_store "a1" "Cubism" "body xml" none "e1" 5
      (by decide)⟩

/-- C8: the explain-by-name controller passes the keyword argument set
including artwork_name, which the repository protocol accepts but the
implementation ArtworkRepositoryImpl.save_artwork_explanation does not (its
parameter list lacks artwork_name), so the call raises TypeError instead of
succeeding. -/
theorem save_artwork_kwargs_mismatch :
    accepts_kwargs protocol_save_artwork_params explain_by_name_save_kwargs = true ∧
    accepts_kwargs impl_save_artwork_params explain_by_name_save_kwargs = false ∧
    explain_by_name_save_kwargs.contains "artwork_name" = true ∧
    impl_save_artwork_params.contains "artwork_name" = false := by decide

/-- C9 counterexample: an authenticated explain-by-name generation creates
no UserSavedArtwork row — the flow fails with TypeError at the save call
(the artwork_name keyword-binding bug) before the commented-out auto-save
block is even reached, so nothing at all is persisted. -/
theorem explain_by_name_no_autosave_cex :
    (explain_artwork witness_ai_by_name empty_store (some "u1") "Mona Lisa" "a1" 5).1
      = .error (.typeError
          "save_artwork_explanation got an unexpected keyword argument artwork_name") ∧
    (explain_artwork witness_ai_by_name empty_store (some "u1") "Mona Lisa" "a1" 5).2
      = empty_store := by
  exact ⟨by rfl, by decide⟩

/-- C9 amended: only the explain-from-image flow auto-saves — an
authenticated image generation appends a UserSavedArtwork row linking the
user to the new artwork and an anonymous one does not; the explain-by-name
flow never writes such a row: its save call raises TypeError (the
artwork_name keyword-binding bug) before the commented-out auto-save block,
persisting nothing and leaving the store unchanged. -/
theorem autosave_only_in_image_flow
    (aiImage aiName : String → String) (s : Store)
    (uid image_data image_path artwork_name fresh_artwork_id : String)
    (userOpt : Option String) (now : Nat) :
    (explain_artwork_from_image aiImage s (some uid) image_data image_path
        fresh_artwork_id now).2.userSaved
      = s.userSaved ++ [{ user_id := uid, artwork_id := fresh_artwork_id, saved_at := now }] ∧
    (explain_artwork_from_image aiImage s none image_data image_path
        fresh_artwork_id now).2.userSaved = s.userSaved ∧
    (explain_artwork aiName s userOpt artwork_name fresh_artwork_id now).1
      = .error (.typeError
          "save_artwork_explanation got an unexpected keyword argument artwork_name") ∧
    (explain_artwork aiName s userOpt artwork_name fresh_artwork_id now).2 = s := by
  have hbind : accepts_kwargs impl_save_artwork_params explain_by_name_save_kwargs
      = false := by decide
  refine ⟨?_, ?_, ?_, ?_⟩ <;>
    simp [explain_artwork, explain_artwork_from_image, save_artwork_explanation,
      save_user_artwork, hbind]

/-- C10: every record returned by get_user_saved_artworks has an empty
explanation body and carries the saved-at timestamp of the user's join row
in its created_at field. -/
theorem user_saved_artworks_projection (s : Store) (user_id : String) :
    ∀ r ∈ get_user_saved_artworks s user_id,
      r.explanation_xml = "" ∧
      ∃ row ∈ s.userSaved, row.user_id = user_id ∧ row.artwork_id = r.artwork_id ∧
        r.created_at = row.saved_at := by
  intro r hr
  unfold get_user_saved_artworks at hr
  rw [List.mem_filterMap] at hr
  obtain ⟨row, hrow, hmap⟩ := hr
  rw [List.mem_filter] at hrow
  obtain ⟨hmem, huid⟩ := hrow
  cases ha : get_artwork_explanation s row.artwork_id with
  | none =>
    rw [ha] at hmap
    exact absurd hmap (by simp)
  | some a =>
    rw [ha] at hmap
    simp only [Option.map_some'] at hmap
    have hrec := Option.some.inj hmap
    subst hrec
    exact ⟨rfl, row, hmem, by simpa using huid, rfl, rfl⟩

/-- Witness for C10: user u1 saved artwork a1 at tick 9 while the artwork
was created at tick 1; the returned record shows created_at 9 and an empty
explanation body. -/
theorem user_saved_artworks_projection_witness :
    (({ artwork_id := "a1", explanation_xml := "", image_path := none,
        creator_user_id := none, created_at := 9 } : ArtworkRecord)
      ∈ get_user_saved_artworks witness_saved_store "u1") ∧
    (({ artwork_id := "a1", explanation_xml := "", image_path := none,
        creator_user_id := none, created_at := 9 } : ArtworkRecord).explanation_xml = "" ∧
      ∃ row ∈ witness_saved_store.userSaved, row.user_id = "u1" ∧ row.artwork_id = "a1" ∧
        (9 : Nat) = row.saved_at) :=
  ⟨by decide,
    user_saved_artworks_projection witness_saved_store "u1"
      { artwork_id := "a1", explanation_xml := "", image_path := none,
        creator_user_id := none, created_at := 9 } (by decide)⟩

/-- C6: tree reconstruction — for any flat record list admitting a depth
ranking below N (as every parent-linked forest does), build_tree with any
fuel above N yields roots that are exactly the records with null
parent_expansion_id (in list order), and every node of the tree has as
children exactly the records whose parent_expansion_id equals that node's
expansion identifier (checked by good_node to any depth above N). -/
theorem build_tree_children_exact
    (l : List SubjectExpansionRecord) (m : String → Nat) (N f g : Nat)
    (Hm : rank_coherent m l = true) (Hb : rank_bounded m N l = true)
    (hf : N + 1 ≤ f) (hg : N + 1 ≤ g) :
    (build_tree f l none).map node_key
      = (l.filter (fun e => e.parent_expansion_id == none)).map record_key ∧
    (build_tree f l none).all (good_node g l) = true := by
  have HmP : ∀ e ∈ l, ∀ pid, e.parent_expansion_id = some pid →
      m e.expansion_id = m pid + 1 := by
    intro e he pid hp
    have h1 := List.all_eq_true.mp Hm e he
    rw [hp] at h1
    simpa using h1
  have HbP : ∀ e ∈ l, m e.expansion_id < N := by
    intro e he
    have h1 := List.all_eq_true.mp Hb e he
    simpa using h1
  constructor
  · obtain ⟨f2, rfl⟩ : ∃ f2, f = f2 + 1 := ⟨f - 1, by omega⟩
    exact build_tree_map_key l none f2
  · exact build_tree_good_aux l m N HmP HbP N none f g (fun e he hp => by omega) hf hg

/-- Witness for C6 at the five-record example: C's parent is B, B's parent
is A, and A, D, E are roots; the built tree has exactly the three roots A, D,
E with A having the single child B, B the single child C, and D, E childless. -/
theorem build_tree_children_exact_witness :
    (rank_coherent forest_rank forest_records = true ∧
      rank_bounded forest_rank 3 forest_records = true) ∧
    ((build_tree 4 forest_records none).map node_key
        = (forest_records.filter (fun e => e.parent_expansion_id == none)).map record_key ∧
      (build_tree 4 forest_records none).all (good_node 4 forest_records) = true) ∧
    build_tree 4 forest_records none
      = [ .mk "A" "sA" "1" [.mk "B" "sB" "2" [.mk "C" "sC" "3" []]],
          .mk "D" "sD" "4" [],
          .mk "E" "sE" "5" [] ] :=
  ⟨⟨by decide, by decide⟩,
    build_tree_children_exact forest_records forest_rank 3 4 4 (by decide) (by decide)
      (by decide) (by decide),
    by rfl⟩

end ArtBackend
